import Mathlib

/-!
Verification development for the tag-autocomplete interaction controller of the
chz-scout frontend.

The controller is the composition of three source units:
* `useDebounce` (src/hooks/useDebounce.ts): a timer that copies the input value
  into a debounced value once the input has been unchanged for `delay` ms, the
  pending timer being cleared and restarted on every value change;
* `useTagAutocomplete` (the hook in src/unnamed/part_002): on every change of
  the debounced search term, `fetchSuggestions` either short-circuits a blank
  term to an empty batch or issues a network lookup whose settlement
  unconditionally stores the resulting batch (or an error) in state;
* `TagAutocomplete` (the component): open/close flag, selection cursor,
  keyboard and pointer handlers, and the usage-count formatter.

The embedding is an event-level state machine.  Each user/network event carries
a timestamp; before an event is processed, a pending debounce timer whose fire
time has passed fires (`autoFire`), which is how real timers behave.  The
caller is modelled as the value-echoing caller (`onChange` sets the displayed
value), which is the contract the specification describes.  Ghost fields
(`valueSetAt`, `nextId`, `issuedLog`, `selectLog`) record when the displayed
value last changed, which lookups were issued, and which suggestions were
committed; they are write-only bookkeeping and never influence control flow,
mirroring the fact that the source has no sequence counter at all.
-/

/-- One autocomplete suggestion, `TagAutocompleteResult` in src/types/tag.ts:
an opaque name paired with a usage count. -/
structure TagAutocompleteResult where
  name : String
  usageCount : Nat
deriving DecidableEq

/-- JavaScript `String.prototype.trim` over the string's characters: leading
and trailing whitespace removed.  (JS trims the full Unicode whitespace set;
the queries at issue here only involve ASCII whitespace.) -/
def jsTrim (s : String) : String :=
  ⟨((s.data.dropWhile Char.isWhitespace).reverse.dropWhile Char.isWhitespace).reverse⟩

/-- Settlement of one network lookup: the resolved batch or the rejection
message. -/
inductive LookupResult where
  | ok (batch : List TagAutocompleteResult)
  | err (msg : String)
deriving DecidableEq

/-- Keys handled by `handleKeyDown` in the `TagAutocomplete` component. -/
inductive Key where
  | down
  | up
  | enter
  | escape
deriving DecidableEq

/-- The composed state of `useDebounce` + `useTagAutocomplete` +
`TagAutocomplete`, together with the value-echoing caller and ghost
bookkeeping.

Source fields: `value` (the caller-owned displayed value), `debounced`
(`debouncedValue` in useDebounce.ts), `timer` (the pending `setTimeout`
handler: scheduled value and fire time), `suggestions`, `isLoading`, `error`
(useTagAutocomplete state), `isOpen`, `selectedIndex` (component state, with
`-1` meaning "none selected" exactly as in the source).

Ghost fields: `valueSetAt` (time of the last change of `value`), `nextId`
(next lookup sequence number), `inflight` (issued, unsettled lookups),
`issuedLog` (every issued lookup: id, prefix, issue time, newest first),
`selectLog` (every `onSelect` invocation, newest first). -/
structure CtrlState where
  value : String
  valueSetAt : Nat
  debounced : String
  timer : Option (String × Nat)
  suggestions : List TagAutocompleteResult
  isLoading : Bool
  error : Option String
  isOpen : Bool
  selectedIndex : Int
  nextId : Nat
  inflight : List (Nat × String)
  issuedLog : List (Nat × String × Nat)
  selectLog : List TagAutocompleteResult
deriving DecidableEq

/-- The debounce interval: the component passes `debounceDelay: 300` and both
hooks default to 300. -/
def debounceDelay : Nat := 300

/-- Initial state of an input session: empty value, empty batch, closed
dropdown, cursor "none".  The mount run of the fetch effect short-circuits the
blank initial term, which leaves exactly this state. -/
def initState : CtrlState :=
  { value := ""
    valueSetAt := 0
    debounced := ""
    timer := none
    suggestions := []
    isLoading := false
    error := none
    isOpen := false
    selectedIndex := -1
    nextId := 0
    inflight := []
    issuedLog := []
    selectLog := [] }

/-- `setSuggestions(batch)` followed by the component's suggestions effect
(TagAutocomplete, "Show dropdown when suggestions are available"): a non-empty
batch opens the dropdown and resets the cursor to `-1`; an empty batch closes
the dropdown and leaves the cursor untouched.  The effect runs on every
`setSuggestions` call because each call stores a fresh array. -/
def applyBatch (st : CtrlState) (batch : List TagAutocompleteResult) : CtrlState :=
  if batch = [] then
    { st with suggestions := batch, isOpen := false }
  else
    { st with suggestions := batch, isOpen := true, selectedIndex := -1 }

/-- The synchronous part of `fetchSuggestions` (src/unnamed/part_002, lines
41-55), run when the debounced search term changes: a term whose trim is empty
short-circuits to an empty batch without touching the loading flag or issuing
a lookup; otherwise the loading flag is set, the error cleared, and a lookup
for the term is issued (ghost-logged with a fresh id at time `t`). -/
def fetchSuggestions (st : CtrlState) (t : Nat) : CtrlState :=
  if jsTrim st.debounced = "" then
    applyBatch st []
  else
    { st with
      isLoading := true
      error := none
      inflight := (st.nextId, st.debounced) :: st.inflight
      issuedLog := (st.nextId, st.debounced, t) :: st.issuedLog
      nextId := st.nextId + 1 }

/-- The debounce timer callback (useDebounce.ts, `setTimeout` body) composed
with React's change propagation: the timer is consumed, the debounced value
becomes `v`, and, only if that is an actual change, the fetch effect re-runs
(its dependency `debouncedSearchTerm` changed). -/
def debounceFire (st : CtrlState) (v : String) (f : Nat) : CtrlState :=
  if v = st.debounced then
    { st with timer := none }
  else
    fetchSuggestions { st with timer := none, debounced := v } f

/-- Fire the pending debounce timer if its fire time has passed; real timers
fire before any later event is handled. -/
def autoFire (st : CtrlState) (t : Nat) : CtrlState :=
  match st.timer with
  | some (v, f) => if f ≤ t then debounceFire st v f else st
  | none => st

/-- `onChange` under the value-echoing caller, composed with `useDebounce`'s
effect: a genuinely new value is stored and the pending timer is cleared and
restarted (`clearTimeout` + `setTimeout`); setting the identical value is a
no-op because React bails out on `Object.is`-equal state, so the effect with
dependencies `[value, delay]` does not re-run. -/
def setValue (st : CtrlState) (t : Nat) (s : String) : CtrlState :=
  if s = st.value then st
  else
    { st with
      value := s
      valueSetAt := t
      timer := some (s, t + debounceDelay) }

/-- `handleSelectTag` (TagAutocomplete): `onChange(tag.name)` (echoed into the
value, scheduling a debounce cycle when the name differs), then the dropdown
closes, then `onSelect` receives the full suggestion (ghost-logged). -/
def handleSelectTag (st : CtrlState) (t : Nat) (tag : TagAutocompleteResult) : CtrlState :=
  let st1 := setValue st t tag.name
  { st1 with isOpen := false, selectLog := tag :: st1.selectLog }

/-- `handleKeyDown` (TagAutocomplete): inert unless the dropdown is open and
the batch non-empty; Down advances clamped below the last index, Up retreats
and falls to `-1` at or below index 0, Enter commits the suggestion at the
cursor when `0 ≤ cursor < length`, Escape closes the dropdown. -/
def handleKeyDown (st : CtrlState) (t : Nat) (k : Key) : CtrlState :=
  if st.isOpen = false ∨ st.suggestions = [] then st
  else
    match k with
    | .down =>
        { st with selectedIndex :=
            if st.selectedIndex < (st.suggestions.length : Int) - 1 then
              st.selectedIndex + 1
            else st.selectedIndex }
    | .up =>
        { st with selectedIndex :=
            if 0 < st.selectedIndex then st.selectedIndex - 1 else -1 }
    | .enter =>
        if 0 ≤ st.selectedIndex ∧ st.selectedIndex < (st.suggestions.length : Int) then
          match st.suggestions.get? st.selectedIndex.toNat with
          | some tag => handleSelectTag st t tag
          | none => st
        else st
    | .escape => { st with isOpen := false }

/-- Pointer activation of suggestion `i`: the suggestion buttons exist exactly
when the dropdown is open and the batch non-empty, and button `i` exists for
`i < length`; clicking it runs `handleSelectTag` on that suggestion. -/
def handleClickSuggestion (st : CtrlState) (t : Nat) (i : Nat) : CtrlState :=
  if st.isOpen = true ∧ i < st.suggestions.length then
    match st.suggestions.get? i with
    | some tag => handleSelectTag st t tag
    | none => st
  else st

/-- Settlement of the lookup with sequence id `id` (the `then`/`catch`/
`finally` of `fetchSuggestions`, src/unnamed/part_002 lines 50-63).  The
source applies the settlement unconditionally — there is no staleness check —
so any still-inflight lookup's settlement overwrites the batch: success stores
the resolved batch, failure records the message and clears the batch, and
either way the loading flag drops. -/
def settleLookup (st : CtrlState) (id : Nat) (res : LookupResult) : CtrlState :=
  if st.inflight.any (fun p => p.1 = id) then
    let st1 := { st with inflight := st.inflight.filter (fun p => ¬ p.1 = id) }
    match res with
    | .ok batch => { applyBatch st1 batch with isLoading := false }
    | .err m => { applyBatch st1 [] with error := some m, isLoading := false }
  else st

/-- External events driving the controller: keyboard input into the text
field, key presses, pointer activation of a suggestion, a pointer interaction
outside the control, settlement of an issued lookup, and plain passage of time
(which only lets a due timer fire). -/
inductive Event where
  | input (s : String)
  | key (k : Key)
  | clickSuggestion (i : Nat)
  | clickOutside
  | response (id : Nat) (res : LookupResult)
  | tick
deriving DecidableEq

/-- One step of the controller: the due timer (if any) fires first, then the
event is handled.  A click outside the control only closes the dropdown
("Close dropdown when clicking outside"). -/
def step (st : CtrlState) (t : Nat) (e : Event) : CtrlState :=
  let st' := autoFire st t
  match e with
  | .input s => setValue st' t s
  | .key k => handleKeyDown st' t k
  | .clickSuggestion i => handleClickSuggestion st' t i
  | .clickOutside => { st' with isOpen := false }
  | .response id res => settleLookup st' id res
  | .tick => st'

/-- Run the controller over a timestamped event trace. -/
def run (st : CtrlState) (tr : List (Nat × Event)) : CtrlState :=
  tr.foldl (fun s p => step s p.1 p.2) st

/-- The states an input session can reach. -/
inductive Reachable : CtrlState → Prop
  | init : Reachable initState
  | step (st : CtrlState) (t : Nat) (e : Event) :
      Reachable st → Reachable (step st t e)

/-- The suggestion dropdown's render condition (TagAutocomplete, the
`isOpen && suggestions.length > 0` guard). -/
def dropdownRendered (st : CtrlState) : Prop :=
  st.isOpen = true ∧ st.suggestions ≠ []

/-- The empty-state message's render condition (TagAutocomplete, the
`isOpen && !isLoading && value.trim() && suggestions.length === 0` guard). -/
def emptyStateRendered (st : CtrlState) : Prop :=
  st.isOpen = true ∧ st.isLoading = false ∧ jsTrim st.value ≠ "" ∧ st.suggestions = []

/-- The dropdown region is visible iff one of the two branches renders. -/
def dropdownVisible (st : CtrlState) : Prop :=
  dropdownRendered st ∨ emptyStateRendered st

instance (st : CtrlState) : Decidable (dropdownRendered st) := by
  unfold dropdownRendered; infer_instance

instance (st : CtrlState) : Decidable (emptyStateRendered st) := by
  unfold emptyStateRendered; infer_instance

instance (st : CtrlState) : Decidable (dropdownVisible st) := by
  unfold dropdownVisible; infer_instance

/-- Floor base-2 logarithm by structural recursion on fuel, so that the
kernel can evaluate it; `log2Aux fuel n` is the floor log2 of `n` whenever
`n ≤ fuel`. -/
def log2Aux : Nat → Nat → Nat
  | 0, _ => 0
  | fuel + 1, n => if 2 ≤ n then log2Aux fuel (n / 2) + 1 else 0

/-- Floor base-2 logarithm (the binade exponent of a positive natural). -/
def natLog2 (n : Nat) : Nat := log2Aux n n

/-- Round `a / b` to the nearest integer, ties to even — IEEE 754's
round-to-nearest-even applied to an exact quotient (meaningful for
`0 < b`). -/
def natRoundHalfEven (a b : Nat) : Nat :=
  if 2 * (a % b) < b then a / b
  else if b < 2 * (a % b) then a / b + 1
  else if (a / b) % 2 = 0 then a / b else a / b + 1

/-- Digits of a tenths value: `n` tenths render as `"<integer part>.<tenths
digit>k"`. -/
def renderTenthsK (n : Nat) : String :=
  toString (n / 10) ++ "." ++ toString (n % 10) ++ "k"

/-- `(count / 1000).toFixed(1) + "k"` for `1000 ≤ count` under exact
IEEE-754 binary64 semantics, in integer arithmetic.  JavaScript's division
produces the double nearest to `c / 1000`, ties to even: with `k` the
quotient's binade exponent, the doubles of that binade are spaced
`2 ^ k / 2 ^ 52` apart, so the double's exact value is `m * 2 ^ k / 2 ^ 52`
with `m = natRoundHalfEven (c * 2 ^ 52) (1000 * 2 ^ k)` its scaled
significand.  ECMAScript `toFixed(1)` then picks the integer `n` minimising
the distance from `n / 10` to the double's exact value `x`, the larger `n`
on a tie — that is, `n` is the floor of `10 * x + 1 / 2`, here
`(20 * m * 2 ^ k + 2 ^ 52) / 2 ^ 53` — and prints `n` with one decimal
digit. -/
def jsDivToFixed1k (c : Nat) : String :=
  renderTenthsK ((20 * natRoundHalfEven (c * 2 ^ 52) (1000 * 2 ^ natLog2 (c / 1000)) *
      2 ^ natLog2 (c / 1000) + 2 ^ 52) / 2 ^ 53)

/-- `formatUsageCount` (TagAutocomplete): a missing count renders as "0"; a
count of at least 1000 renders as `(count / 1000).toFixed(1)` suffixed "k",
modelled with exact IEEE-754 binary64 semantics (`jsDivToFixed1k`); a
smaller count renders as the plain integer (`count.toString()`). -/
def formatUsageCount (count : Option Nat) : String :=
  match count with
  | none => "0"
  | some c =>
      if 1000 ≤ c then jsDivToFixed1k c
      else toString c

/-- Specification-side formatter: "the count divided by 1000, to one decimal
place, suffixed k", computed over the rationals with `Nat.floor (x + 1/2)` as
one-decimal rounding. -/
def formatUsageCountSpec (count : Option Nat) : String :=
  match count with
  | none => "0"
  | some c =>
      if 1000 ≤ c then
        let n : Nat := Nat.floor ((c : ℚ) / 100 + 1 / 2)
        toString (n / 10) ++ "." ++ toString (n % 10) ++ "k"
      else
        toString c

/-- The success-envelope shape returned by the backend
(`ApiResponse<T>` in src/services/tagService.ts). -/
structure ApiResponse (α : Type) where
  success : Bool
  data : Option α
  errorMessage : Option String

/-- `fetchTagAutocomplete` (src/services/tagService.ts) restricted to an
HTTP-successful response: the result is `response.data.data || []`, the
envelope's data field with `null` replaced by the empty list. -/
def fetchTagAutocomplete (resp : ApiResponse (List TagAutocompleteResult)) :
    List TagAutocompleteResult :=
  resp.data.getD []

example : formatUsageCount (some 1500) = "1.5k" := by decide
example : formatUsageCount (some 5000) = "5.0k" := by decide
example : formatUsageCount (some 42) = "42" := by decide
example : formatUsageCount none = "0" := by decide

/-! ## Invariants -/

/-- The controller's state invariant.

`timer_ok`: a pending debounce timer always holds the current displayed value
and is scheduled for exactly `debounceDelay` after that value was last
changed (this is what makes "stable for the full debounce interval" true).
`cursor_lb`: the cursor never goes below `-1`.
`cursor_ub`: while the batch is non-empty the cursor stays below its length.
`open_nonempty`: the dropdown's open flag implies a non-empty batch, because
the suggestions effect clears the flag whenever an empty batch is stored. -/
structure CtrlInv (st : CtrlState) : Prop where
  timer_ok : ∀ v f, st.timer = some (v, f) → v = st.value ∧ f = st.valueSetAt + debounceDelay
  cursor_lb : -1 ≤ st.selectedIndex
  cursor_ub : st.suggestions ≠ [] → st.selectedIndex < st.suggestions.length
  open_nonempty : st.isOpen = true → st.suggestions ≠ []

theorem inv_initState : CtrlInv initState := by
  constructor <;> simp [initState]

theorem inv_applyBatch {st : CtrlState} (batch : List TagAutocompleteResult)
    (h : CtrlInv st) : CtrlInv (applyBatch st batch) := by
  unfold applyBatch
  split
  · exact ⟨h.timer_ok, h.cursor_lb, by simp_all, by simp⟩
  · refine ⟨h.timer_ok, by simp, ?_, by simp_all⟩
    intro hne
    have : 0 < batch.length := List.length_pos.mpr (by simp_all)
    simp only [CtrlState.selectedIndex]
    omega

theorem inv_fetchSuggestions {st : CtrlState} (t : Nat) (h : CtrlInv st) :
    CtrlInv (fetchSuggestions st t) := by
  unfold fetchSuggestions
  split
  · exact inv_applyBatch [] h
  · exact ⟨h.timer_ok, h.cursor_lb, h.cursor_ub, h.open_nonempty⟩

theorem inv_debounceFire {st : CtrlState} (v : String) (f : Nat) (h : CtrlInv st) :
    CtrlInv (debounceFire st v f) := by
  unfold debounceFire
  split
  · exact ⟨by simp, h.cursor_lb, h.cursor_ub, h.open_nonempty⟩
  · exact inv_fetchSuggestions f ⟨by simp, h.cursor_lb, h.cursor_ub, h.open_nonempty⟩

theorem inv_autoFire {st : CtrlState} (t : Nat) (h : CtrlInv st) :
    CtrlInv (autoFire st t) := by
  unfold autoFire
  split
  · split
    · exact inv_debounceFire _ _ h
    · exact h
  · exact h

theorem inv_setValue {st : CtrlState} (t : Nat) (s : String) (h : CtrlInv st) :
    CtrlInv (setValue st t s) := by
  unfold setValue
  split
  · exact h
  · exact ⟨by simp, h.cursor_lb, h.cursor_ub, h.open_nonempty⟩

theorem inv_handleSelectTag {st : CtrlState} (t : Nat) (tag : TagAutocompleteResult)
    (h : CtrlInv st) : CtrlInv (handleSelectTag st t tag) := by
  have h1 := inv_setValue t tag.name h
  unfold handleSelectTag
  exact ⟨by simpa using h1.timer_ok, h1.cursor_lb, h1.cursor_ub, by simp⟩

theorem inv_handleKeyDown {st : CtrlState} (t : Nat) (k : Key) (h : CtrlInv st) :
    CtrlInv (handleKeyDown st t k) := by
  unfold handleKeyDown
  split
  · exact h
  · rename_i hguard
    have hne : st.suggestions ≠ [] := (not_or.mp hguard).2
    have hub := h.cursor_ub hne
    have hlb := h.cursor_lb
    cases k with
    | down =>
        refine ⟨h.timer_ok, ?_, fun _ => ?_, h.open_nonempty⟩
        all_goals dsimp only
        all_goals split <;> omega
    | up =>
        refine ⟨h.timer_ok, ?_, fun _ => ?_, h.open_nonempty⟩
        all_goals dsimp only
        all_goals split <;> omega
    | enter =>
        dsimp only
        split
        · split
          · exact inv_handleSelectTag _ _ h
          · exact h
        · exact h
    | escape => exact ⟨h.timer_ok, h.cursor_lb, h.cursor_ub, by simp⟩

theorem inv_handleClickSuggestion {st : CtrlState} (t : Nat) (i : Nat) (h : CtrlInv st) :
    CtrlInv (handleClickSuggestion st t i) := by
  unfold handleClickSuggestion
  split
  · split
    · exact inv_handleSelectTag _ _ h
    · exact h
  · exact h

theorem inv_settleLookup {st : CtrlState} (id : Nat) (res : LookupResult) (h : CtrlInv st) :
    CtrlInv (settleLookup st id res) := by
  unfold settleLookup
  split
  · have h1 : CtrlInv { st with inflight := st.inflight.filter (fun p => ¬ p.1 = id) } :=
      ⟨h.timer_ok, h.cursor_lb, h.cursor_ub, h.open_nonempty⟩
    match res with
    | .ok batch =>
        have h2 := inv_applyBatch batch h1
        exact ⟨by simpa using h2.timer_ok, h2.cursor_lb, h2.cursor_ub, by simpa using h2.open_nonempty⟩
    | .err m =>
        have h2 := inv_applyBatch [] h1
        exact ⟨by simpa using h2.timer_ok, h2.cursor_lb, h2.cursor_ub, by simpa using h2.open_nonempty⟩
  · exact h

theorem inv_step {st : CtrlState} (t : Nat) (e : Event) (h : CtrlInv st) :
    CtrlInv (step st t e) := by
  have h' := inv_autoFire t h
  unfold step
  match e with
  | .input s => exact inv_setValue t s h'
  | .key k => exact inv_handleKeyDown t k h'
  | .clickSuggestion i => exact inv_handleClickSuggestion t i h'
  | .clickOutside =>
      exact ⟨h'.timer_ok, h'.cursor_lb, h'.cursor_ub, by simp⟩
  | .response id res => exact inv_settleLookup id res h'
  | .tick => exact h'

theorem reachable_inv {st : CtrlState} (h : Reachable st) : CtrlInv st := by
  induction h with
  | init => exact inv_initState
  | step st t e _ ih => exact inv_step t e ih

theorem reachable_run_of (st : CtrlState) (tr : List (Nat × Event)) (h : Reachable st) :
    Reachable (run st tr) := by
  induction tr generalizing st with
  | nil => exact h
  | cons p tl ih => exact ih _ (Reachable.step st p.1 p.2 h)

theorem reachable_run (tr : List (Nat × Event)) : Reachable (run initState tr) :=
  reachable_run_of initState tr Reachable.init

/-! ## Where lookups are issued -/

theorem setValue_issuedLog (st : CtrlState) (t : Nat) (s : String) :
    (setValue st t s).issuedLog = st.issuedLog := by
  unfold setValue
  split <;> rfl

theorem applyBatch_issuedLog (st : CtrlState) (batch : List TagAutocompleteResult) :
    (applyBatch st batch).issuedLog = st.issuedLog := by
  unfold applyBatch
  split <;> rfl

theorem handleSelectTag_issuedLog (st : CtrlState) (t : Nat) (tag : TagAutocompleteResult) :
    (handleSelectTag st t tag).issuedLog = st.issuedLog := by
  unfold handleSelectTag
  exact setValue_issuedLog st t tag.name

theorem handleKeyDown_issuedLog (st : CtrlState) (t : Nat) (k : Key) :
    (handleKeyDown st t k).issuedLog = st.issuedLog := by
  unfold handleKeyDown
  split
  · rfl
  · cases k with
    | down => rfl
    | up => rfl
    | enter =>
        dsimp only
        split
        · split
          · exact handleSelectTag_issuedLog _ _ _
          · rfl
        · rfl
    | escape => rfl

theorem handleClickSuggestion_issuedLog (st : CtrlState) (t : Nat) (i : Nat) :
    (handleClickSuggestion st t i).issuedLog = st.issuedLog := by
  unfold handleClickSuggestion
  split
  · split
    · exact handleSelectTag_issuedLog _ _ _
    · rfl
  · rfl

theorem settleLookup_issuedLog (st : CtrlState) (id : Nat) (res : LookupResult) :
    (settleLookup st id res).issuedLog = st.issuedLog := by
  unfold settleLookup
  split
  · match res with
    | .ok batch => simpa using applyBatch_issuedLog _ batch
    | .err m => simpa using applyBatch_issuedLog _ []
  · rfl

/-- Event handling never issues a lookup: only the debounce timer's firing
does. -/
theorem step_issuedLog (st : CtrlState) (t : Nat) (e : Event) :
    (step st t e).issuedLog = (autoFire st t).issuedLog := by
  unfold step
  cases e with
  | input s => exact setValue_issuedLog _ _ _
  | key k => exact handleKeyDown_issuedLog _ _ _
  | clickSuggestion i => exact handleClickSuggestion_issuedLog _ _ _
  | clickOutside => rfl
  | response id res => exact settleLookup_issuedLog _ _ _
  | tick => rfl

/-- Firing the due timer either issues nothing, or issues exactly one lookup
whose prefix is the scheduled value and whose issue time is the scheduled fire
time. -/
theorem autoFire_issuedLog_cases (st : CtrlState) (t : Nat) :
    (autoFire st t).issuedLog = st.issuedLog ∨
    ∃ v f, st.timer = some (v, f) ∧ f ≤ t ∧
      (autoFire st t).issuedLog = (st.nextId, v, f) :: st.issuedLog := by
  cases htimer : st.timer with
  | none => left; simp [autoFire, htimer]
  | some p =>
      obtain ⟨v, f⟩ := p
      by_cases hf : f ≤ t
      · unfold autoFire
        rw [htimer]
        simp only [hf, if_true]
        unfold debounceFire
        by_cases hv : v = st.debounced
        · left; simp [hv]
        · rw [if_neg hv]
          unfold fetchSuggestions
          by_cases hb : jsTrim v = ""
          · left
            simp only [hb, if_pos]
            exact applyBatch_issuedLog _ []
          · right
            exact ⟨v, f, rfl, hf, by simp [hb]⟩
      · left; simp [autoFire, htimer, hf]

/-! ## Claims -/

/-- C3: for every input sequence, a lookup is only issued when the pending
debounce timer fires, which happens exactly `debounceDelay` after the query
was last changed, with the query unchanged since then (part 1: every lookup
entry appearing in a step was scheduled for the still-current value at time
`valueSetAt + debounceDelay`); and any query change arriving before the
scheduled fire time replaces the pending timer without the old one ever
firing, so the previously scheduled lookup never issues (part 2). -/
theorem C3_debounce_contract :
    (∀ st, Reachable st → ∀ t e en, en ∈ (step st t e).issuedLog →
        en ∈ st.issuedLog ∨
        (st.timer = some (st.value, st.valueSetAt + debounceDelay) ∧
         st.valueSetAt + debounceDelay ≤ t ∧
         en = (st.nextId, st.value, st.valueSetAt + debounceDelay))) ∧
    (∀ st v f s t, st.timer = some (v, f) → t < f → s ≠ st.value →
        (step st t (.input s)).timer = some (s, t + debounceDelay) ∧
        (step st t (.input s)).issuedLog = st.issuedLog) := by
  constructor
  · intro st hreach t e en hen
    rw [step_issuedLog] at hen
    rcases autoFire_issuedLog_cases st t with hsame | ⟨v, f, htimer, hle, hlog⟩
    · left; rwa [hsame] at hen
    · obtain ⟨hv, hf⟩ := (reachable_inv hreach).timer_ok v f htimer
      subst hv
      subst hf
      rw [hlog] at hen
      rcases List.mem_cons.mp hen with heq | hmem
      · right; exact ⟨htimer, hle, heq⟩
      · left; exact hmem
  · intro st v f s t htimer hlt hneq
    have hnotfire : ¬ f ≤ t := Nat.not_le.mpr hlt
    have hstep : step st t (.input s) = setValue st t s := by
      show setValue (autoFire st t) t s = setValue st t s
      unfold autoFire
      rw [htimer]
      simp [hnotfire]
    rw [hstep]
    constructor
    · unfold setValue
      rw [if_neg hneq]
    · exact setValue_issuedLog st t s

/-- Witness for C3 at concrete inputs: typing "a" at time 0 and letting the
timer fire at time 300 issues the lookup entry characterised by part 1, and an
"ab" keystroke at time 100 reschedules the timer and issues nothing (part 2). -/
theorem C3_debounce_contract_witness :
    (((0 : Nat), "a", (300 : Nat)) ∈ (step initState 0 (Event.input "a")).issuedLog ∨
      ((step initState 0 (Event.input "a")).timer =
          some ((step initState 0 (Event.input "a")).value,
            (step initState 0 (Event.input "a")).valueSetAt + debounceDelay) ∧
        (step initState 0 (Event.input "a")).valueSetAt + debounceDelay ≤ 300 ∧
        ((0 : Nat), "a", (300 : Nat)) =
          ((step initState 0 (Event.input "a")).nextId,
            (step initState 0 (Event.input "a")).value,
            (step initState 0 (Event.input "a")).valueSetAt + debounceDelay))) ∧
    ((step (step initState 0 (Event.input "a")) 100 (Event.input "ab")).timer =
        some ("ab", 100 + debounceDelay) ∧
      (step (step initState 0 (Event.input "a")) 100 (Event.input "ab")).issuedLog =
        (step initState 0 (Event.input "a")).issuedLog) := by
  constructor
  · exact C3_debounce_contract.1 (step initState 0 (Event.input "a"))
      (Reachable.step initState 0 (Event.input "a") Reachable.init)
      300 Event.tick ((0 : Nat), "a", (300 : Nat)) (by decide)
  · exact C3_debounce_contract.2 (step initState 0 (Event.input "a"))
      "a" 300 "ab" 100 (by decide) (by decide) (by decide)

/-- The payload of the first (stale) lookup in the C1 interleaving. -/
def sugA : TagAutocompleteResult := ⟨"a-match", 1⟩

/-- The payload of the second (fresh) lookup in the C1 interleaving. -/
def sugAB : TagAutocompleteResult := ⟨"ab-match", 2⟩

/-- C1's out-of-order interleaving: lookup 0 for "a" is issued at 300, lookup
1 for "ab" at 650; lookup 1's response arrives first (700), lookup 0's stale
response arrives last (750). -/
def c1Trace : List (Nat × Event) :=
  [(0, Event.input "a"), (300, Event.tick), (350, Event.input "ab"),
   (650, Event.tick), (700, Event.response 1 (LookupResult.ok [sugAB])),
   (750, Event.response 0 (LookupResult.ok [sugA]))]

/-- C1: the source has no staleness guard — `fetchSuggestions` stores whatever
settles, so after the interleaving of `c1Trace` the most recently issued query
is "ab" (lookup id 1) yet the rendered batch is the stale payload of lookup
id 0, not lookup 1's payload: last arrival wins, not last issued.  The spec
calls exactly this a defect, so this evaluates the code at the failing
input. -/
theorem C1_stale_response_overwrites :
    (run initState c1Trace).issuedLog = [(1, "ab", 650), (0, "a", 300)] ∧
    (run initState c1Trace).suggestions = [sugA] ∧
    (run initState c1Trace).suggestions ≠ [sugAB] := by decide

/-- A concrete one-suggestion batch used by several concrete scenarios. -/
def sugAlpha : TagAutocompleteResult := ⟨"alpha", 3⟩

/-- Type "a", let the lookup fire and resolve to a one-element batch: the
dropdown is open with cursor "none". -/
def openTrace : List (Nat × Event) :=
  [(0, Event.input "a"), (300, Event.tick),
   (310, Event.response 0 (LookupResult.ok [sugAlpha]))]

/-- The open-dropdown state reached by `openTrace`. -/
def openState : CtrlState := run initState openTrace

/-- C2 (amended): in every reachable state with a non-empty batch the cursor
is `-1` ("none") or in `[0, batchLength - 1]`; the cursor is reset to "none"
whenever the batch changes to a *non-empty* batch (when the batch becomes
empty the dropdown merely closes and the stale cursor value is retained);
Down moves to `min (cursor + 1) (batchLength - 1)` (clamped, no wrap); Up
moves to `max (cursor - 1) (-1)` (from 0 to "none", no wrap). -/
theorem C2_cursor_discipline :
    (∀ st, Reachable st → st.suggestions ≠ [] →
        -1 ≤ st.selectedIndex ∧ st.selectedIndex < (st.suggestions.length : Int)) ∧
    (∀ st batch, batch ≠ [] → (applyBatch st batch).selectedIndex = -1) ∧
    (∀ st t, Reachable st → st.isOpen = true → st.suggestions ≠ [] →
        (handleKeyDown st t Key.down).selectedIndex =
          min (st.selectedIndex + 1) ((st.suggestions.length : Int) - 1)) ∧
    (∀ st t, st.isOpen = true → st.suggestions ≠ [] →
        (handleKeyDown st t Key.up).selectedIndex =
          max (st.selectedIndex - 1) (-1)) := by
  refine ⟨?_, ?_, ?_, ?_⟩
  · intro st h hne
    exact ⟨(reachable_inv h).cursor_lb, (reachable_inv h).cursor_ub hne⟩
  · intro st batch hb
    unfold applyBatch
    rw [if_neg hb]
  · intro st t h hopen hne
    have hub := (reachable_inv h).cursor_ub hne
    unfold handleKeyDown
    rw [if_neg (by simp [hopen, hne])]
    dsimp only
    split <;> omega
  · intro st t hopen hne
    unfold handleKeyDown
    rw [if_neg (by simp [hopen, hne])]
    dsimp only
    split <;> omega

/-- Witness for C2 at the concrete open state (batch `[alpha]`, cursor
"none"): bounds hold, a non-empty batch resets the cursor, Down clamps and Up
floors exactly as stated. -/
theorem C2_cursor_discipline_witness :
    (-1 ≤ openState.selectedIndex ∧
      openState.selectedIndex < (openState.suggestions.length : Int)) ∧
    (applyBatch initState [sugAlpha]).selectedIndex = -1 ∧
    (handleKeyDown openState 320 Key.down).selectedIndex =
      min (openState.selectedIndex + 1) ((openState.suggestions.length : Int) - 1) ∧
    (handleKeyDown openState 320 Key.up).selectedIndex =
      max (openState.selectedIndex - 1) (-1) := by
  refine ⟨C2_cursor_discipline.1 openState (reachable_run openTrace) (by decide),
    C2_cursor_discipline.2.1 initState [sugAlpha] (by decide),
    C2_cursor_discipline.2.2.1 openState 320 (reachable_run openTrace) (by decide) (by decide),
    C2_cursor_discipline.2.2.2 openState 320 (by decide) (by decide)⟩

/-- C2's counterexample trace: open the dropdown on batch `[alpha]`, press
Down (cursor 0), retype to "b", and let the second lookup resolve to the
empty batch. -/
def c2Trace : List (Nat × Event) :=
  [(0, Event.input "a"), (300, Event.tick),
   (310, Event.response 0 (LookupResult.ok [sugAlpha])),
   (320, Event.key Key.down), (330, Event.input "b"),
   (630, Event.tick), (640, Event.response 1 (LookupResult.ok []))]

/-- Counterexample to C2 as stated: a reachable state whose batch is empty
while the cursor still reads 0 — the batch change to the empty batch did not
reset the cursor to "none", and 0 is not in the empty range
`[0, batchLength - 1]`. -/
theorem C2_cursor_discipline_cex :
    Reachable (run initState c2Trace) ∧
    (run initState c2Trace).suggestions = [] ∧
    (run initState c2Trace).selectedIndex = 0 :=
  ⟨reachable_run c2Trace, by decide, by decide⟩

/-- `handleSelectTag` always commits: the displayed value becomes the
suggestion's name (either it already was, or the echoed `onChange` stores
it), the dropdown closes, and `onSelect` receives the full suggestion. -/
theorem handleSelectTag_spec (st : CtrlState) (t : Nat) (tag : TagAutocompleteResult) :
    (handleSelectTag st t tag).value = tag.name ∧
    (handleSelectTag st t tag).isOpen = false ∧
    (handleSelectTag st t tag).selectLog = tag :: st.selectLog := by
  by_cases heq : tag.name = st.value
  · simp [handleSelectTag, setValue, heq]
  · simp [handleSelectTag, setValue, heq]

/-- C4: Enter with cursor "none" (any negative cursor) is a no-op; Enter with
the cursor on suggestion `i`, and likewise pointer activation of suggestion
`i`, replace the displayed value with that suggestion's name, close the
dropdown, and pass the full suggestion object (name and usage count) to
`onSelect`. -/
theorem C4_commit_contract :
    (∀ st t, st.selectedIndex < 0 → handleKeyDown st t Key.enter = st) ∧
    (∀ st t (i : Nat) tag, st.isOpen = true → st.suggestions.get? i = some tag →
        st.selectedIndex = (i : Int) →
        (handleKeyDown st t Key.enter).value = tag.name ∧
        (handleKeyDown st t Key.enter).isOpen = false ∧
        (handleKeyDown st t Key.enter).selectLog = tag :: st.selectLog) ∧
    (∀ st t (i : Nat) tag, st.isOpen = true → st.suggestions.get? i = some tag →
        (handleClickSuggestion st t i).value = tag.name ∧
        (handleClickSuggestion st t i).isOpen = false ∧
        (handleClickSuggestion st t i).selectLog = tag :: st.selectLog) := by
  refine ⟨?_, ?_, ?_⟩
  · intro st t hcur
    unfold handleKeyDown
    split
    · rfl
    · dsimp only
      rw [if_neg (fun hc => absurd hc.1 (not_le.mpr hcur))]
  · intro st t i tag hopen hget hsel
    have hi : i < st.suggestions.length := (List.get?_eq_some.mp hget).1
    have hne : st.suggestions ≠ [] := List.ne_nil_of_length_pos (by omega)
    unfold handleKeyDown
    rw [if_neg (by simp [hopen, hne])]
    dsimp only
    rw [if_pos ⟨by rw [hsel]; exact Int.natCast_nonneg i, by rw [hsel]; exact_mod_cast hi⟩]
    rw [hsel, Int.toNat_natCast, hget]
    exact handleSelectTag_spec st t tag
  · intro st t i tag hopen hget
    have hi : i < st.suggestions.length := (List.get?_eq_some.mp hget).1
    unfold handleClickSuggestion
    rw [if_pos ⟨hopen, hi⟩, hget]
    exact handleSelectTag_spec st t tag

/-- The open state with the cursor moved onto suggestion 0 by one Down
press. -/
def selState : CtrlState := step openState 320 (Event.key Key.down)

/-- Witness for C4 at concrete inputs: Enter in the fresh state (cursor
"none") is a no-op; Enter with the cursor on `alpha`, and a click on
suggestion 0, each commit `alpha`. -/
theorem C4_commit_contract_witness :
    handleKeyDown initState 0 Key.enter = initState ∧
    ((handleKeyDown selState 330 Key.enter).value = sugAlpha.name ∧
      (handleKeyDown selState 330 Key.enter).isOpen = false ∧
      (handleKeyDown selState 330 Key.enter).selectLog = sugAlpha :: selState.selectLog) ∧
    ((handleClickSuggestion openState 320 0).value = sugAlpha.name ∧
      (handleClickSuggestion openState 320 0).isOpen = false ∧
      (handleClickSuggestion openState 320 0).selectLog = sugAlpha :: openState.selectLog) := by
  refine ⟨C4_commit_contract.1 initState 0 (by decide),
    C4_commit_contract.2.1 selState 330 0 sugAlpha (by decide) (by decide) (by decide),
    C4_commit_contract.2.2 openState 320 0 sugAlpha (by decide) (by decide)⟩

/-- C5: a settled query whose trim is empty short-circuits — the batch
becomes empty, and no lookup is issued (no ghost-log entry, no in-flight
request, sequence counter untouched, loading flag untouched). -/
theorem C5_blank_query_short_circuit :
    ∀ st t, jsTrim st.debounced = "" →
      (fetchSuggestions st t).suggestions = [] ∧
      (fetchSuggestions st t).issuedLog = st.issuedLog ∧
      (fetchSuggestions st t).inflight = st.inflight ∧
      (fetchSuggestions st t).nextId = st.nextId ∧
      (fetchSuggestions st t).isLoading = st.isLoading := by
  intro st t hb
  simp [fetchSuggestions, hb, applyBatch]

/-- Witness for C5 at the concrete whitespace-only settled query "   ". -/
theorem C5_blank_query_short_circuit_witness :
    (fetchSuggestions { initState with debounced := "   " } 0).suggestions = [] ∧
    (fetchSuggestions { initState with debounced := "   " } 0).issuedLog =
      ({ initState with debounced := "   " } : CtrlState).issuedLog ∧
    (fetchSuggestions { initState with debounced := "   " } 0).inflight =
      ({ initState with debounced := "   " } : CtrlState).inflight ∧
    (fetchSuggestions { initState with debounced := "   " } 0).nextId =
      ({ initState with debounced := "   " } : CtrlState).nextId ∧
    (fetchSuggestions { initState with debounced := "   " } 0).isLoading =
      ({ initState with debounced := "   " } : CtrlState).isLoading :=
  C5_blank_query_short_circuit { initState with debounced := "   " } 0 (by decide)

/-- C6: settling any in-flight lookup with a failure clears the batch,
records the error message, drops the loading flag, and issues no further
lookup (ghost log and sequence counter unchanged); nothing reaches the
caller (no `onSelect` call, displayed value untouched) — the `catch` swallows
the rejection. -/
theorem C6_lookup_failure_handling :
    ∀ st id p m, (id, p) ∈ st.inflight →
      (settleLookup st id (LookupResult.err m)).suggestions = [] ∧
      (settleLookup st id (LookupResult.err m)).error = some m ∧
      (settleLookup st id (LookupResult.err m)).isLoading = false ∧
      (settleLookup st id (LookupResult.err m)).issuedLog = st.issuedLog ∧
      (settleLookup st id (LookupResult.err m)).nextId = st.nextId ∧
      (settleLookup st id (LookupResult.err m)).selectLog = st.selectLog ∧
      (settleLookup st id (LookupResult.err m)).value = st.value := by
  intro st id p m hmem
  have hany : st.inflight.any (fun q => q.1 = id) = true :=
    List.any_eq_true.mpr ⟨(id, p), hmem, by simp⟩
  simp [settleLookup, hany, applyBatch]

/-- Witness for C6: failing the single in-flight lookup of a concrete
state. -/
theorem C6_lookup_failure_handling_witness :
    (settleLookup { initState with inflight := [(0, "q")], isLoading := true } 0
        (LookupResult.err "network")).suggestions = [] ∧
    (settleLookup { initState with inflight := [(0, "q")], isLoading := true } 0
        (LookupResult.err "network")).error = some "network" ∧
    (settleLookup { initState with inflight := [(0, "q")], isLoading := true } 0
        (LookupResult.err "network")).isLoading = false ∧
    (settleLookup { initState with inflight := [(0, "q")], isLoading := true } 0
        (LookupResult.err "network")).issuedLog =
      ({ initState with inflight := [(0, "q")], isLoading := true } : CtrlState).issuedLog ∧
    (settleLookup { initState with inflight := [(0, "q")], isLoading := true } 0
        (LookupResult.err "network")).nextId =
      ({ initState with inflight := [(0, "q")], isLoading := true } : CtrlState).nextId ∧
    (settleLookup { initState with inflight := [(0, "q")], isLoading := true } 0
        (LookupResult.err "network")).selectLog =
      ({ initState with inflight := [(0, "q")], isLoading := true } : CtrlState).selectLog ∧
    (settleLookup { initState with inflight := [(0, "q")], isLoading := true } 0
        (LookupResult.err "network")).value =
      ({ initState with inflight := [(0, "q")], isLoading := true } : CtrlState).value :=
  C6_lookup_failure_handling { initState with inflight := [(0, "q")], isLoading := true }
    0 "q" "network" (by decide)

/-- C7 (amended): in every reachable state the dropdown region is visible iff
the open flag is set and the batch is non-empty; the open flag itself forces
a non-empty batch (the suggestions effect clears it whenever an empty batch
is stored), so the empty-state branch, which additionally requires the open
flag, never renders in any reachable state. -/
theorem C7_dropdown_visibility :
    ∀ st, Reachable st →
      (dropdownVisible st ↔ st.isOpen = true ∧ st.suggestions ≠ []) ∧
      (st.isOpen = true → st.suggestions ≠ []) ∧
      ¬ emptyStateRendered st := by
  intro st h
  have hop := (reachable_inv h).open_nonempty
  have hnoempty : ¬ emptyStateRendered st := by
    rintro ⟨ho, -, -, hemp⟩
    exact hop ho hemp
  refine ⟨?_, hop, hnoempty⟩
  constructor
  · rintro (hd | he)
    · exact hd
    · exact absurd he hnoempty
  · exact fun hd => Or.inl hd

/-- Witness for C7 at the concrete open state reached by `openTrace`. -/
theorem C7_dropdown_visibility_witness :
    (dropdownVisible openState ↔ openState.isOpen = true ∧ openState.suggestions ≠ []) ∧
    (openState.isOpen = true → openState.suggestions ≠ []) ∧
    ¬ emptyStateRendered openState :=
  C7_dropdown_visibility openState (reachable_run openTrace)

/-- C7's counterexample trace: open the dropdown on a non-empty batch, then
press Escape. -/
def c7Trace : List (Nat × Event) :=
  [(0, Event.input "a"), (300, Event.tick),
   (310, Event.response 0 (LookupResult.ok [sugAlpha])),
   (320, Event.key Key.escape)]

/-- Counterexample to C7 as stated: after Escape the batch is still
non-empty, yet nothing renders — visibility is not equivalent to
"batch non-empty, or batch empty ∧ query non-blank ∧ not pending"; the open
flag is a necessary extra conjunct. -/
theorem C7_dropdown_visibility_cex :
    Reachable (run initState c7Trace) ∧
    (run initState c7Trace).suggestions ≠ [] ∧
    ¬ dropdownVisible (run initState c7Trace) :=
  ⟨reachable_run c7Trace, by decide, by decide⟩

/-- One-decimal ties-up rounding of `c / 1000` over the rationals equals the
natural-number expression `(c + 50) / 100` (tenths). -/
theorem toFixed1_eq (c : Nat) :
    Nat.floor ((c : ℚ) / 100 + 1 / 2) = (c + 50) / 100 := by
  have h1 : (c : ℚ) / 100 + 1 / 2 = ((c + 50 : ℕ) : ℚ) / ((100 : ℕ) : ℚ) := by
    push_cast
    ring
  rw [h1, Nat.floor_div_nat, Nat.floor_natCast]

/-- With enough fuel, `2 ^ log2Aux fuel n ≤ n` for positive `n`. -/
theorem log2Aux_le (fuel : Nat) :
    ∀ n, n ≠ 0 → n ≤ fuel → 2 ^ log2Aux fuel n ≤ n := by
  induction fuel with
  | zero =>
      intro n hn hle
      simp [log2Aux]
      omega
  | succ fuel ih =>
      intro n hn hle
      unfold log2Aux
      split
      · rename_i h2
        have hhalf := ih (n / 2) (by omega) (by omega)
        rw [pow_succ]
        omega
      · simp only [pow_zero]
        omega

/-- `natLog2` lower bound: `2 ^ natLog2 n ≤ n` for positive `n`. -/
theorem natLog2_le (n : Nat) (hn : n ≠ 0) : 2 ^ natLog2 n ≤ n :=
  log2Aux_le n n hn (Nat.le_refl n)

/-- The even-rounded quotient is within half a unit of the exact quotient:
`|natRoundHalfEven a b * b - a| ≤ b / 2`, stated subtraction-free. -/
theorem natRoundHalfEven_err (a b : Nat) (hb : 0 < b) :
    2 * (natRoundHalfEven a b * b) ≤ 2 * a + b ∧
    2 * a ≤ 2 * (natRoundHalfEven a b * b) + b := by
  have hdm := Nat.div_add_mod' a b
  have hrb : a % b < b := Nat.mod_lt a hb
  have hx : (a / b + 1) * b = a / b * b + b := by ring
  unfold natRoundHalfEven
  split
  · omega
  · split
    · omega
    · split
      · omega
      · omega

/-- Away from exact decimal ties, the tenths value computed through the
IEEE-double of `c / 1000` equals exact ties-up one-decimal rounding: for
`1000 ≤ c < 2 ^ 53` with `c` not congruent to 50 modulo 100, the rendered
tenths are `(c + 50) / 100`. -/
theorem jsDiv_digits_nonTie (c : Nat) (h1 : 1000 ≤ c) (h2 : c < 2 ^ 53)
    (h3 : c % 100 ≠ 50) :
    (20 * natRoundHalfEven (c * 2 ^ 52) (1000 * 2 ^ natLog2 (c / 1000)) *
        2 ^ natLog2 (c / 1000) + 2 ^ 52) / 2 ^ 53 = (c + 50) / 100 := by
  rw [show (2 : Nat) ^ 53 = 9007199254740992 from by norm_num] at h2
  have hBle : (2 : Nat) ^ natLog2 (c / 1000) ≤ c / 1000 := natLog2_le (c / 1000) (by omega)
  obtain ⟨herr1, herr2⟩ :=
    natRoundHalfEven_err (c * 2 ^ 52) (1000 * 2 ^ natLog2 (c / 1000)) (by positivity)
  set B := (2 : Nat) ^ natLog2 (c / 1000) with hBdef
  set m := natRoundHalfEven (c * 2 ^ 52) (1000 * B) with hmdef
  have e1 : 2000 * (m * B) ≤ 9007199254740992 * c + 1000 * B := by
    calc 2000 * (m * B) = 2 * (m * (1000 * B)) := by ring
      _ ≤ 2 * (c * 2 ^ 52) + 1000 * B := herr1
      _ = 9007199254740992 * c + 1000 * B := by
          rw [show (2 : Nat) ^ 52 = 4503599627370496 from by norm_num]
          ring
  have e2 : 9007199254740992 * c ≤ 2000 * (m * B) + 1000 * B := by
    calc 9007199254740992 * c = 2 * (c * 2 ^ 52) := by
          rw [show (2 : Nat) ^ 52 = 4503599627370496 from by norm_num]
          ring
      _ ≤ 2 * (m * (1000 * B)) + 1000 * B := herr2
      _ = 2000 * (m * B) + 1000 * B := by ring
  have hB1000 : 1000 * B ≤ c := by omega
  obtain ⟨q, r, hqr, hr1, hr9⟩ : ∃ q r, 100 * q + r = c + 50 ∧ 1 ≤ r ∧ r ≤ 99 := by
    refine ⟨(c + 50) / 100, (c + 50) % 100, by omega, by omega, by omega⟩
  have hA : q * 9007199254740992 ≤ 20 * (m * B) + 4503599627370496 := by omega
  have hB2 : 20 * (m * B) + 4503599627370496 < (q + 1) * 9007199254740992 := by omega
  rw [show 20 * m * B = 20 * (m * B) from by ring,
    show (2 : Nat) ^ 52 = 4503599627370496 from by norm_num,
    show (2 : Nat) ^ 53 = 9007199254740992 from by norm_num,
    show (c + 50) / 100 = q from by omega]
  exact Nat.div_eq_of_lt_le hA hB2

/-- Away from exact decimal ties, the program's formatter agrees with the
specification-side formatter. -/
theorem formatUsageCount_nonTie (c : Nat) (h1 : 1000 ≤ c) (h2 : c < 2 ^ 53)
    (h3 : c % 100 ≠ 50) :
    formatUsageCount (some c) = formatUsageCountSpec (some c) := by
  simp only [formatUsageCount, formatUsageCountSpec, if_pos h1]
  rw [toFixed1_eq]
  unfold jsDivToFixed1k renderTenthsK
  rw [jsDiv_digits_nonTie c h1 h2 h3]

/-- C8 (amended): under exact IEEE-754 binary64 semantics, a count of at
least 1000 (and below 2 ^ 53, the exactly representable integer range)
renders as the double value of count / 1000 rounded to one decimal place
suffixed "k"; this agrees with exact one-decimal rounding of count / 1000
whenever the count is not congruent to 50 modulo 100, while at such exact
ties the double's representation error decides the direction (1050 renders
"1.1k", rounding up; 1150 renders "1.1k", rounding down).  Counts below 1000
render as the plain integer, and a missing count renders as "0". -/
theorem C8_format_usage_count :
    (∀ c, 1000 ≤ c → c < 2 ^ 53 → c % 100 ≠ 50 →
        formatUsageCount (some c) = formatUsageCountSpec (some c)) ∧
    (∀ c, c < 1000 → formatUsageCount (some c) = toString c) ∧
    formatUsageCount none = "0" ∧
    formatUsageCount (some 1500) = "1.5k" ∧
    formatUsageCount (some 5000) = "5.0k" ∧
    formatUsageCount (some 42) = "42" ∧
    formatUsageCount (some 1050) = "1.1k" ∧
    formatUsageCount (some 1150) = "1.1k" := by
  refine ⟨formatUsageCount_nonTie, ?_, rfl, by decide, by decide, by decide,
    by decide, by decide⟩
  intro c hc
  simp only [formatUsageCount, if_neg (Nat.not_le.mpr hc)]

/-- Witness for C8 at concrete counts: 1500 (not a tie) agrees with the
specification-side formatter, and 42 renders as the plain integer. -/
theorem C8_format_usage_count_witness :
    formatUsageCount (some 1500) = formatUsageCountSpec (some 1500) ∧
    formatUsageCount (some 42) = toString 42 :=
  ⟨C8_format_usage_count.1 1500 (by norm_num) (by norm_num) (by norm_num),
   C8_format_usage_count.2.1 42 (by norm_num)⟩

/-- Counterexample to C8 as stated: at count 1150 the program renders
"1.1k" — the IEEE double of 1150 / 1000 lies just below the exact tie 1.15,
so `toFixed(1)` rounds down — while the count divided by 1000 to one decimal
place (the specification-side formatter; ties up, and ties-to-even agrees)
is "1.2k". -/
theorem C8_format_usage_count_cex :
    formatUsageCount (some 1150) = "1.1k" ∧
    formatUsageCountSpec (some 1150) = "1.2k" ∧
    formatUsageCount (some 1150) ≠ formatUsageCountSpec (some 1150) := by
  have hspec : formatUsageCountSpec (some 1150) = "1.2k" := by
    simp only [formatUsageCountSpec]
    rw [if_pos (by norm_num), toFixed1_eq]
    decide
  refine ⟨by decide, hspec, ?_⟩
  rw [hspec]
  decide

/-- C9: on every HTTP-successful response envelope, `fetchTagAutocomplete`
yields the empty list when the envelope's data field is null, and the carried
list otherwise — a resolved lookup always yields a list, never null. -/
theorem C9_fetch_never_null :
    (∀ resp : ApiResponse (List TagAutocompleteResult),
        resp.data = none → fetchTagAutocomplete resp = []) ∧
    (∀ (resp : ApiResponse (List TagAutocompleteResult))
        (l : List TagAutocompleteResult),
        resp.data = some l → fetchTagAutocomplete resp = l) := by
  constructor
  · intro resp h
    simp [fetchTagAutocomplete, h]
  · intro resp l h
    simp [fetchTagAutocomplete, h]

/-- Witness for C9 at two concrete envelopes: null data and a one-element
list. -/
theorem C9_fetch_never_null_witness :
    fetchTagAutocomplete ⟨true, none, none⟩ = [] ∧
    fetchTagAutocomplete ⟨true, some [⟨"LOL", 1500⟩], none⟩ = [⟨"LOL", 1500⟩] :=
  ⟨C9_fetch_never_null.1 ⟨true, none, none⟩ rfl,
   C9_fetch_never_null.2 ⟨true, some [⟨"LOL", 1500⟩], none⟩ [⟨"LOL", 1500⟩] rfl⟩


/-- C10 (amended): committing suggestion `tag` whose name differs from the
displayed value and from the settled query (and is non-blank) closes the
dropdown, replaces the value, and schedules a debounce cycle; once the
interval elapses with no further input, a lookup with the committed name as
prefix is issued, and when that lookup resolves to a non-empty batch the
dropdown reopens.  If instead the committed name equals the already-settled
displayed value (and no timer is pending), no new lookup is ever issued and
the dropdown stays closed. -/
theorem C10_commit_reissues_lookup :
    (∀ st t t' t'' tag l, tag.name ≠ st.value → tag.name ≠ st.debounced →
        jsTrim tag.name ≠ "" → t + debounceDelay ≤ t' → l ≠ [] →
        (handleSelectTag st t tag).isOpen = false ∧
        (handleSelectTag st t tag).value = tag.name ∧
        (handleSelectTag st t tag).timer = some (tag.name, t + debounceDelay) ∧
        (step (handleSelectTag st t tag) t' Event.tick).issuedLog =
          (st.nextId, tag.name, t + debounceDelay) :: st.issuedLog ∧
        (step (step (handleSelectTag st t tag) t' Event.tick) t''
            (Event.response st.nextId (LookupResult.ok l))).isOpen = true ∧
        (step (step (handleSelectTag st t tag) t' Event.tick) t''
            (Event.response st.nextId (LookupResult.ok l))).suggestions = l) ∧
    (∀ st t t' tag, st.timer = none → tag.name = st.value →
        (step (handleSelectTag st t tag) t' Event.tick).issuedLog = st.issuedLog ∧
        (step (handleSelectTag st t tag) t' Event.tick).isOpen = false) := by
  constructor
  · intro st t t' t'' tag l hnv hnd hnb ht' hl
    have h1 : handleSelectTag st t tag =
        { st with
          value := tag.name
          valueSetAt := t
          timer := some (tag.name, t + debounceDelay)
          isOpen := false
          selectLog := tag :: st.selectLog } := by
      simp [handleSelectTag, setValue, hnv]
    have h2 : step (handleSelectTag st t tag) t' Event.tick =
        { st with
          value := tag.name
          valueSetAt := t
          timer := none
          debounced := tag.name
          isLoading := true
          error := none
          isOpen := false
          selectLog := tag :: st.selectLog
          inflight := (st.nextId, tag.name) :: st.inflight
          issuedLog := (st.nextId, tag.name, t + debounceDelay) :: st.issuedLog
          nextId := st.nextId + 1 } := by
      show autoFire (handleSelectTag st t tag) t' = _
      rw [h1]
      unfold autoFire
      dsimp only
      rw [if_pos ht']
      unfold debounceFire
      rw [if_neg (by exact hnd)]
      unfold fetchSuggestions
      rw [if_neg (by exact hnb)]
    have h3 : step (step (handleSelectTag st t tag) t' Event.tick) t''
        (Event.response st.nextId (LookupResult.ok l)) =
        settleLookup (step (handleSelectTag st t tag) t' Event.tick)
          st.nextId (LookupResult.ok l) := by
      have haf : autoFire (step (handleSelectTag st t tag) t' Event.tick) t'' =
          step (handleSelectTag st t tag) t' Event.tick := by
        rw [h2]
        rfl
      show settleLookup (autoFire (step (handleSelectTag st t tag) t' Event.tick) t'')
          st.nextId (LookupResult.ok l) = _
      rw [haf]
    refine ⟨by rw [h1], by rw [h1], by rw [h1], by rw [h2], ?_, ?_⟩
    · rw [h3, h2]
      unfold settleLookup
      rw [if_pos (by simp)]
      dsimp only
      unfold applyBatch
      rw [if_neg hl]
    · rw [h3, h2]
      unfold settleLookup
      rw [if_pos (by simp)]
      dsimp only
      unfold applyBatch
      rw [if_neg hl]
  · intro st t t' tag htimer hveq
    have h1 : handleSelectTag st t tag =
        { st with isOpen := false, selectLog := tag :: st.selectLog } := by
      simp [handleSelectTag, setValue, hveq]
    have h2 : step (handleSelectTag st t tag) t' Event.tick =
        handleSelectTag st t tag := by
      have ht : (handleSelectTag st t tag).timer = st.timer := by
        rw [h1]
      show autoFire (handleSelectTag st t tag) t' = _
      unfold autoFire
      rw [ht, htimer]
    rw [h2, h1]
    exact ⟨rfl, rfl⟩

/-- The suggestion committed in the C10 scenarios. -/
def sugLOL : TagAutocompleteResult := ⟨"LOL", 1500⟩

/-- Witness for C10 at concrete inputs: committing "LOL" from the fresh
session reissues a "LOL" lookup at time 300 and a non-empty response reopens
the dropdown; committing a suggestion whose name equals the settled displayed
value issues nothing. -/
theorem C10_commit_reissues_lookup_witness :
    ((handleSelectTag initState 0 sugLOL).isOpen = false ∧
      (handleSelectTag initState 0 sugLOL).value = sugLOL.name ∧
      (handleSelectTag initState 0 sugLOL).timer = some (sugLOL.name, 0 + debounceDelay) ∧
      (step (handleSelectTag initState 0 sugLOL) 300 Event.tick).issuedLog =
        (initState.nextId, sugLOL.name, 0 + debounceDelay) :: initState.issuedLog ∧
      (step (step (handleSelectTag initState 0 sugLOL) 300 Event.tick) 310
          (Event.response initState.nextId (LookupResult.ok [sugLOL]))).isOpen = true ∧
      (step (step (handleSelectTag initState 0 sugLOL) 300 Event.tick) 310
          (Event.response initState.nextId (LookupResult.ok [sugLOL]))).suggestions =
        [sugLOL]) ∧
    ((step (handleSelectTag initState 0 ⟨"", 0⟩) 400 Event.tick).issuedLog =
        initState.issuedLog ∧
      (step (handleSelectTag initState 0 ⟨"", 0⟩) 400 Event.tick).isOpen = false) := by
  refine ⟨C10_commit_reissues_lookup.1 initState 0 300 310 sugLOL [sugLOL]
      (by decide) (by decide) (by decide) (by decide) (by decide),
    C10_commit_reissues_lookup.2 initState 0 400 ⟨"", 0⟩ rfl rfl⟩

/-- C10's counterexample trace: type "LOL", let the lookup resolve, press
Down then Enter to commit the suggestion "LOL" (equal to the displayed
value), then let time pass far beyond the debounce interval. -/
def c10Trace : List (Nat × Event) :=
  [(0, Event.input "LOL"), (300, Event.tick),
   (310, Event.response 0 (LookupResult.ok [sugLOL])),
   (320, Event.key Key.down), (330, Event.key Key.enter),
   (10000, Event.tick)]

/-- Counterexample to C10 as stated: a commit happened (the select log is
non-empty), the caller never changed the value afterwards, the debounce
interval fully elapsed — yet the only lookup ever issued is the original one
at time 300 and the dropdown stays closed: no post-commit lookup is issued
when the committed name equals the already-settled query. -/
theorem C10_commit_reissues_lookup_cex :
    (run initState c10Trace).selectLog = [sugLOL] ∧
    (run initState c10Trace).issuedLog = [(0, "LOL", 300)] ∧
    (run initState c10Trace).isOpen = false := by decide
